import Mathlib

/-!
Verification of the CloudData ransomware-monitor core against its
natural-language specification.

The definitions below are a shallow embedding of the Python source:

* `parseLogLine` embeds `RansomwareLogProcessor.parse_log_line`
  (src/data_processor.py, final class version, lines 338-393);
* `checkSuspiciousActivity` and friends embed
  `RansomwareDetector.check_suspicious_activity` and
  `FileMonitor.on_modified` (src/monitor.py, final class versions);
* `analyzeThreats` embeds `RansomwareAnalyzer.analyze_threats`
  (src/analyzer.py, lines 215-255).

Timestamps are modelled as rationals (the source uses Python floats; no
claim depends on rounding).  The Python value None becomes `Option.none`,
dictionaries of kind-specific shape become a sum type, and a Python
exception escaping a function is modelled with an explicit error value.
String primitives (`split`, `in`, `startswith`, `strip`) are given
structural-recursive models over `List Char` so that every definition
evaluates by kernel reduction on concrete inputs.
-/

namespace CloudData

/-! ## Python string primitives used by the source -/

/-- Whitespace-splitting worker: accumulates the current (reversed)
token and emits it at each whitespace run boundary. -/
def splitWsAux : List Char → List Char → List (List Char)
  | [], acc => if acc.isEmpty then [] else [acc.reverse]
  | c :: cs, acc =>
    if c.isWhitespace then
      if acc.isEmpty then splitWsAux cs []
      else acc.reverse :: splitWsAux cs []
    else splitWsAux cs (c :: acc)

/-- Python `str.split()` with no separator: split on runs of whitespace
and drop empty pieces.  The source always calls `line.strip().split()`,
which is equivalent. -/
def splitWs (s : String) : List String :=
  (splitWsAux s.data []).map (fun cs => ⟨cs⟩)

/-- Python `s.split(sep)` for a single-character separator: splitting
keeps empty pieces: splitting "a::b" on a colon gives "a", "", "b",
and splitting the empty string gives one empty piece. -/
def splitOnChar (sep : Char) : List Char → List (List Char)
  | [] => [[]]
  | c :: cs =>
    if c = sep then [] :: splitOnChar sep cs
    else
      match splitOnChar sep cs with
      | [] => [[c]]
      | h :: t => (c :: h) :: t

/-- Python s.split on a colon, on strings. -/
def splitColon (s : String) : List String :=
  (splitOnChar ':' s.data).map (fun cs => ⟨cs⟩)

/-- List-prefix test (Python `s.startswith(p)` on the underlying
characters). -/
def isPrefixList : List Char → List Char → Bool
  | [], _ => true
  | _ :: _, [] => false
  | a :: as, b :: bs => a = b && isPrefixList as bs

/-- Python `sub in s` substring containment on the underlying
characters. -/
def containsList (sub : List Char) : List Char → Bool
  | [] => isPrefixList sub []
  | c :: cs => isPrefixList sub (c :: cs) || containsList sub cs

/-- Python `sub in s` on strings. -/
def containsSub (s sub : String) : Bool :=
  containsList sub.data s.data

/-- Python `str.startswith`. -/
def pyStartsWith (s p : String) : Bool :=
  isPrefixList p.data s.data

/-- Python `not line.strip()`: the line is blank (only whitespace). -/
def isBlankLine (s : String) : Bool :=
  s.data.all Char.isWhitespace

/-- Python single-space join of parts. -/
def joinSpace : List String → String
  | [] => ""
  | [x] => x
  | x :: y :: rest => x ++ " " ++ joinSpace (y :: rest)

/-- Python `str.lower()` restricted to ASCII (sufficient for every
deny-list comparison in the source). -/
def pyLower (s : String) : String :=
  ⟨s.data.map Char.toLower⟩

/-- Digits of a decimal numeral to a natural number; `none` if the list is
empty or holds a non-digit. -/
def decDigits? (cs : List Char) : Option ℕ :=
  if cs.isEmpty then none
  else cs.foldl
    (fun acc c => match acc with
      | none => none
      | some n => if c.isDigit then some (n * 10 + (c.toNat - 48)) else none)
    (some 0)

/-- Strip one optional leading sign, returning the sign and the rest. -/
def stripSign : List Char → ℤ × List Char
  | '+' :: cs => (1, cs)
  | '-' :: cs => (-1, cs)
  | cs => (1, cs)

/-- Split a character list at the first occurrence of a separator
satisfying `p`; returns the part before and, when found, the part after. -/
def breakAt (p : Char → Bool) : List Char → List Char × Option (List Char)
  | [] => ([], none)
  | c :: cs =>
    if p c then ([], some cs)
    else
      let (pre, post) := breakAt p cs
      (c :: pre, post)

/-- Value of a signed decimal literal `sign`·`digits`·10^`shift`, built
with `Rat.mkRat` and integer arithmetic only (all kernel-reducible). -/
def decValue (sign : ℤ) (n : ℕ) (shift : ℤ) : ℚ :=
  if 0 ≤ shift then ((sign * n * ((10 : ℕ) ^ shift.toNat : ℕ) : ℤ) : ℚ)
  else mkRat (sign * n) ((10 : ℕ) ^ (-shift).toNat)

/-- Model of Python `float(s)` for decimal literals: optional sign,
digits with optional fraction and optional exponent.  The special forms
(`inf`, `nan`, underscore separators, surrounding whitespace) are not
modelled; no source input or claim exercises them. -/
def pyFloat? (s : String) : Option ℚ :=
  let (sign, cs) := stripSign s.data
  let (mant, expPart) := breakAt (fun c => c = 'e' ∨ c = 'E') cs
  let (intPart, fracPart) := breakAt (fun c => c = '.') mant
  let frac := fracPart.getD []
  if intPart.isEmpty ∧ frac.isEmpty then none
  else if ¬ (intPart ++ frac).all Char.isDigit then none
  else
    match decDigits? (intPart ++ frac) with
    | none => none
    | some n =>
      match expPart with
      | none => some (decValue sign n (-(frac.length : ℤ)))
      | some ecs =>
        let (esign, eds) := stripSign ecs
        match decDigits? eds with
        | none => none
        | some e => some (decValue sign n (esign * e - frac.length))

/-- Model of Python `int(s)` for decimal literals: optional sign then
digits (underscores and surrounding whitespace not modelled). -/
def pyInt? (s : String) : Option ℤ :=
  let (sign, cs) := stripSign s.data
  if cs.all Char.isDigit then (decDigits? cs).map (fun n => sign * n)
  else none

/-! ## LineParser: `RansomwareLogProcessor.parse_log_line` -/

/-- The parsed record, one shape per log kind, mirroring the three
dictionary shapes returned by `parse_log_line`.  Fields that the source
sets conditionally to `None` are `Option`s. -/
inductive LogRecord where
  | dns (timestamp : ℚ) (src_ip dst_ip : String)
        (dns_query response : Option String)
  | tcp (timestamp : ℚ) (src_ip dst_ip : String)
        (src_port dst_port : Option ℤ) (smb_command : Option String)
  | io (timestamp : ℚ) (operation file_path : Option String)
  deriving DecidableEq, Repr

/-- Skip test of `parse_log_line`: blank line, or header line
(starts with `Timestamp` or contains `IP_src`). -/
def isSkipLine (line : String) : Bool :=
  isBlankLine line || pyStartsWith line "Timestamp" || containsSub line "IP_src"

/-- `RansomwareLogProcessor.parse_log_line` (src/data_processor.py,
lines 338-393).  Returns `none` wherever the Python returns `None`,
including the `except (IndexError, ValueError)` path around the TCP port
conversions and the implicit `None` for an unknown `log_type`. -/
def parseLogLine (line : String) (logType : String) : Option LogRecord :=
  if isSkipLine line then none
  else
    let fields := splitWs line
    if fields.isEmpty then none
    else
      match pyFloat? (fields.headD "") with
      | none => none
      | some timestamp =>
        if logType = "DNSinfo.txt" then
          if fields.length < 3 then none
          else some (.dns timestamp
            ((splitColon (fields.getD 1 "")).headD "")
            ((splitColon (fields.getD 2 "")).headD "")
            (if fields.length > 4 then some (fields.getD 4 "") else none)
            (if fields.length > 5 then some (fields.getD 5 "") else none))
        else if logType = "TCPconnInfo.txt" then
          if fields.length < 3 then none
          else
            let srcParts := splitColon (fields.getD 1 "")
            let dstParts := splitColon (fields.getD 2 "")
            -- int(...) raising ValueError aborts the whole line (caught
            -- by `except (IndexError, ValueError): return None`).
            let srcPort? : Option (Option ℤ) :=
              if srcParts.length > 1 then (pyInt? (srcParts.getD 1 "")).map some
              else some none
            let dstPort? : Option (Option ℤ) :=
              if dstParts.length > 1 then (pyInt? (dstParts.getD 1 "")).map some
              else some none
            match srcPort?, dstPort? with
            | some sp, some dp =>
              some (.tcp timestamp (srcParts.headD "") (dstParts.headD "")
                sp dp
                (if fields.length > 3 then some (fields.getD 3 "") else none))
            | _, _ => none
        else if logType = "IOops.txt" then
          if fields.length < 2 then none
          else some (.io timestamp
            (if fields.length > 1 then some (fields.getD 1 "") else none)
            (if fields.length > 2 then some (joinSpace (fields.drop 2)) else none))
        else none

/-- The three log kinds `parse_log_line` recognises. -/
def knownLogTypes : List String := ["DNSinfo.txt", "TCPconnInfo.txt", "IOops.txt"]

/-! ## ThreatScorer: `RansomwareDetector` / `FileMonitor` (src/monitor.py,
final class versions, lines 154-244) -/

/-- One entry of the activity_log events list: a dictionary with keys
timestamp, event_type and path. -/
structure FsEvent where
  timestamp : ℚ
  event_type : String
  path : String
  deriving DecidableEq, Repr

/-- `self.alert_threshold = 10`. -/
def alert_threshold : ℕ := 10

/-- The deny-list self.suspicious_extensions: .encrypted, .crypto, .locked, .decrypt. -/
def suspicious_extensions : List String :=
  [".encrypted", ".crypto", ".locked", ".decrypt"]

/-- Python `os.path.splitext` (posixpath): split off the extension at
the last dot, provided the dot lies after the last path separator and
some character of the basename before it is not a dot. -/
def splitext (p : String) : String × String :=
  let cs := p.data
  let sepEnd := (((cs.enum.filter (fun q => q.2 = '/')).getLast?).map
    (fun q => q.1 + 1)).getD 0
  match ((cs.enum.filter (fun q => q.2 = '.')).getLast?).map (fun q => q.1) with
  | none => (p, "")
  | some d =>
    if sepEnd ≤ d ∧ ((cs.drop sepEnd).take (d - sepEnd)).any (fun c => c ≠ '.') then
      (⟨cs.take d⟩, ⟨cs.drop d⟩)
    else (p, "")

/-- `_, ext = os.path.splitext(file_path); ext.lower() in self.suspicious_extensions`. -/
def is_suspicious_ext (file_path : String) : Bool :=
  suspicious_extensions.contains (pyLower (splitext file_path).2)

/-- `one_minute_ago = event_time - 60`. -/
def one_minute_ago (event_time : ℚ) : ℚ := event_time - 60

/-- The list comprehension keeping the events whose timestamp exceeds one_minute_ago. -/
def recent_events (event_time : ℚ) (log : List FsEvent) : List FsEvent :=
  log.filter (fun e => one_minute_ago event_time < e.timestamp)

/-- `high_activity = len(recent_events) > self.alert_threshold`. -/
def high_activity (event_time : ℚ) (log : List FsEvent) : Bool :=
  alert_threshold < (recent_events event_time log).length

/-- The ML branch: `ml_suspicious = False; if self.using_ml and
recent_events: try: ml_suspicious = self.ml_detector.predict(...) except:
pass-after-logging`.  The classifier is a capability
`classify : List FsEvent → Option Bool`; `none` models a raised
exception, which the source catches, leaving `ml_suspicious = False`. -/
def ml_suspicious (using_ml : Bool) (classify : List FsEvent → Option Bool)
    (recent : List FsEvent) : Bool :=
  if using_ml ∧ ¬ recent.isEmpty then (classify recent).getD false else false

/-- The `reasons` list built at lines 207-213, in source order:
extension rule, then high-activity rule, then ML rule. -/
def build_reasons (extFlag highFlag mlFlag : Bool) : List String :=
  (if extFlag then ["Suspicious extension detected"] else []) ++
  (if highFlag then ["High modification rate"] else []) ++
  (if mlFlag then ["ML model detected suspicious pattern"] else [])

/-- Detection semantics of `check_suspicious_activity` (lines 182-215):
the decision and the `reasons` list as constructed, before the call
`self.save_alert(...)` at line 216. -/
def checkSuspiciousActivity (event_time : ℚ) (log : List FsEvent)
    (file_path : String) (using_ml : Bool)
    (classify : List FsEvent → Option Bool) : Bool × List String :=
  let recent := recent_events event_time log
  let extFlag := is_suspicious_ext file_path
  let highFlag := alert_threshold < recent.length
  let mlFlag := ml_suspicious using_ml classify recent
  if extFlag || highFlag || mlFlag then (true, build_reasons extFlag highFlag mlFlag)
  else (false, [])

/-- Names bound in the final (uncommented) `RansomwareDetector` class
body.  `save_alert` is absent: only the abandoned commented-out draft at
the top of src/monitor.py defines it. -/
def ransomwareDetectorMethods : List String :=
  ["__init__", "save_activity_log", "check_suspicious_activity"]

/-- Result of running a Python call to completion: a return value, or an
uncaught exception. -/
inductive PyOutcome (α : Type) where
  | ok (val : α)
  | exn (msg : String)
  deriving DecidableEq, Repr

/-- Running `check_suspicious_activity` to completion.  When a signal
triggers, line 216 evaluates `self.save_alert`; attribute lookup falls
through instance and class without finding `save_alert`, so the call
raises `AttributeError` and the method never returns. -/
def checkSuspiciousActivityRun (event_time : ℚ) (log : List FsEvent)
    (file_path : String) (using_ml : Bool)
    (classify : List FsEvent → Option Bool) : PyOutcome Bool :=
  let result := checkSuspiciousActivity event_time log file_path using_ml classify
  if result.1 then
    if ransomwareDetectorMethods.contains "save_alert" then .ok true
    else .exn "AttributeError: RansomwareDetector object has no attribute save_alert"
  else .ok false

/-- Mutable state of a `RansomwareDetector` instance: `using_ml` and
the activity_log events list. -/
structure DetectorState where
  using_ml : Bool
  activity_log : List FsEvent
  deriving Repr

/-- `RansomwareDetector.__init__`: `using_ml` is `True` exactly when
`load_model` succeeded; the activity log starts empty. -/
def initDetector (loadOk : Bool) : DetectorState :=
  { using_ml := loadOk, activity_log := [] }

/-- `FileMonitor.on_modified` (lines 224-233) state change: append the
event to the activity_log events list.  No code path evicts entries or
writes `using_ml`. -/
def onModified (s : DetectorState) (t : ℚ) (path : String) : DetectorState :=
  { s with activity_log := s.activity_log ++ [⟨t, "modified", path⟩] }

/-- Feed a sequence of modification events through `on_modified`. -/
def processEvents (s : DetectorState) (evts : List (ℚ × String)) : DetectorState :=
  evts.foldl (fun st p => onModified st p.1 p.2) s

/-! ## Batch mode: `RansomwareAnalyzer.analyze_threats`
(src/analyzer.py, lines 215-255) -/

/-- One row of the analyzer DataFrame (only the columns
`analyze_threats` reads). -/
structure LogRow where
  timestamp : ℚ
  path : String
  deriving DecidableEq, Repr

/-- The analyzer deny-list: .encrypt, .locked, .crypted, .cry, .crypto. -/
def analyzer_suspicious_extensions : List String :=
  [".encrypt", ".locked", ".crypted", ".cry", ".crypto"]

/-- The rapid-operations check: time_diffs = diff of the group timestamp
column, then any of them below Timedelta of one second.  Some consecutive
pair of rows (in group order) has difference below one second; the first
diff is NaT, which compares false. -/
def hasRapidOps : List LogRow → Bool
  | a :: b :: rest =>
    decide (b.timestamp - a.timestamp < 1) || hasRapidOps (b :: rest)
  | _ => false

/-- `any(ext in str(path).lower() for ext in suspicious_extensions)`:
substring containment, not an extension match. -/
def pathSuspicious (path : String) : Bool :=
  analyzer_suspicious_extensions.any (fun ext => containsSub (pyLower path) ext)

/-- Insert into an ascending, duplicate-free list of strings. -/
def insertSortedString (x : String) : List String → List String
  | [] => [x]
  | y :: ys =>
    if x < y then x :: y :: ys
    else if x = y then y :: ys
    else y :: insertSortedString x ys

/-- Keys of the pandas groupby on the path column: the distinct paths in ascending order
(pandas `groupby` sorts group keys by default). -/
def groupKeys (rows : List LogRow) : List String :=
  rows.foldl (fun acc r => insertSortedString r.path acc) []

/-- The rows of one group, in original row order (pandas `groupby`
preserves intra-group order). -/
def groupRows (rows : List LogRow) (p : String) : List LogRow :=
  rows.filter (fun r => r.path = p)

/-- The threat dictionary appended by `analyze_threats`. -/
structure Threat where
  path : String
  threat_score : ℕ
  indicators : List String
  first_seen : ℚ
  last_seen : ℚ
  event_count : ℕ
  deriving DecidableEq, Repr

/-- Minimum of the group timestamp column (groups are never empty; 0 is
an arbitrary value for the impossible empty case). -/
def minTimestamp : List LogRow → ℚ
  | [] => 0
  | r :: rs => rs.foldl (fun m x => min m x.timestamp) r.timestamp

/-- Maximum of the group timestamp column. -/
def maxTimestamp : List LogRow → ℚ
  | [] => 0
  | r :: rs => rs.foldl (fun m x => max m x.timestamp) r.timestamp

/-- Score and indicators computed for one path group
(lines 224-253). -/
def threatOf (p : String) (g : List LogRow) : Threat :=
  let rapid := hasRapidOps g
  let susp := pathSuspicious p
  let many := 10 < g.length
  { path := p
    threat_score :=
      (if rapid then 2 else 0) + (if susp then 3 else 0) + (if many then 1 else 0)
    indicators :=
      (if rapid then ["Rapid file operations detected"] else []) ++
      (if susp then ["Suspicious file extension detected"] else []) ++
      (if many then ["High volume of file operations"] else [])
    first_seen := minTimestamp g
    last_seen := maxTimestamp g
    event_count := g.length }

/-- Insertion step of a stable descending sort on `threat_score`: a new
element goes before every element of equal or smaller score it meets
first, matching the stable Python sorted with reverse=True. -/
def insortThreatDesc (t : Threat) : List Threat → List Threat
  | [] => [t]
  | h :: rest =>
    if h.threat_score ≤ t.threat_score then t :: h :: rest
    else h :: insortThreatDesc t rest

/-- The stable Python sorted of the threats list, key threat_score,
reverse=True. -/
def sortThreatsDesc (l : List Threat) : List Threat :=
  l.foldr insortThreatDesc []

/-- `RansomwareAnalyzer.analyze_threats`: group rows by path (keys in
pandas-sorted order), score each group, keep scores ≥ 2, and stably sort
by score descending. -/
def analyzeThreats (rows : List LogRow) : List Threat :=
  sortThreatsDesc ((groupKeys rows).filterMap (fun p =>
    let t := threatOf p (groupRows rows p)
    if 2 ≤ t.threat_score then some t else none))

/-- The order actually realised by `analyze_threats`: score strictly
descending, ties in ascending path order (the order in which pandas
groupby iterates the groups). -/
def tieBreak (a b : Threat) : Prop :=
  b.threat_score < a.threat_score ∨
    (a.threat_score = b.threat_score ∧ a.path < b.path)

/-- The distinct paths of a row list in order of first occurrence
(the insertion order of the groups, as the claim reads it). -/
def firstOccurrencePaths (rows : List LogRow) : List String :=
  rows.foldl (fun acc r => if acc.contains r.path then acc else acc ++ [r.path]) []

end CloudData

namespace CloudData

/-! ## Helper lemmas -/

theorem check_eq (t : ℚ) (log : List FsEvent) (path : String) (uml : Bool)
    (cls : List FsEvent → Option Bool) :
    checkSuspiciousActivity t log path uml cls =
      (let e := is_suspicious_ext path
       let h := decide (alert_threshold < (recent_events t log).length)
       let m := ml_suspicious uml cls (recent_events t log)
       if e || h || m then (true, build_reasons e h m) else (false, [])) := rfl

theorem mem_build_reasons_ext (e h m : Bool) :
    ("Suspicious extension detected" ∈ build_reasons e h m) ↔ e = true := by
  revert e h m; decide

theorem mem_build_reasons_high (e h m : Bool) :
    ("High modification rate" ∈ build_reasons e h m) ↔ h = true := by
  revert e h m; decide

theorem ml_suspicious_of_unavailable (uml : Bool) (cls : List FsEvent → Option Bool)
    (recent : List FsEvent) (h : uml = false ∨ cls recent = none) :
    ml_suspicious uml cls recent = false := by
  rcases h with h | h <;> simp [ml_suspicious, h]

theorem ml_suspicious_false (cls : List FsEvent → Option Bool) (recent : List FsEvent) :
    ml_suspicious false cls recent = false := by
  simp [ml_suspicious]

theorem processEvents_using_ml (s : DetectorState) (evts : List (ℚ × String)) :
    (processEvents s evts).using_ml = s.using_ml := by
  induction evts generalizing s with
  | nil => rfl
  | cons p ps ih =>
    show (processEvents (onModified s p.1 p.2) ps).using_ml = _
    rw [ih, onModified]

theorem processEvents_activity_log (s : DetectorState) (evts : List (ℚ × String)) :
    (processEvents s evts).activity_log
      = s.activity_log ++ evts.map (fun p => ⟨p.1, "modified", p.2⟩) := by
  induction evts generalizing s with
  | nil => simp [processEvents]
  | cons p ps ih =>
    show (processEvents (onModified s p.1 p.2) ps).activity_log = _
    rw [ih, onModified]
    simp

end CloudData
namespace CloudData

/-! ## Claims -/

/-- C7: parsing the literal line
"1700000000.0 10.0.0.5:4444 10.0.0.9:445 WRITE" as a network-kind
(TCPconnInfo.txt) line yields a network record with timestamp
1700000000.0, src_ip 10.0.0.5, src_port 4444, dst_ip 10.0.0.9,
dst_port 445 and command WRITE; the filesystem- and dns-specific fields
are absent (the record is built by the network constructor, which has
none of them). -/
theorem C7_net_line_end_to_end :
    parseLogLine "1700000000.0 10.0.0.5:4444 10.0.0.9:445 WRITE" "TCPconnInfo.txt"
      = some (.tcp 1700000000 "10.0.0.5" "10.0.0.9" (some 4444) (some 445)
          (some "WRITE")) := by
  decide

/-- C1: at the failing input (a modification event on file.locked at
time 0, empty prior log), the extension signal triggers and the reasons
list is built, but running the evaluation to completion raises
AttributeError at the `self.save_alert` call (the final
RansomwareDetector class defines no `save_alert`), so no alert is
persisted and the evaluation never returns. -/
theorem C1_save_alert_crash :
    checkSuspiciousActivity 0
        (processEvents (initDetector false) [(0, "file.locked")]).activity_log
        "file.locked" false (fun _ => none)
      = (true, ["Suspicious extension detected"]) ∧
    checkSuspiciousActivityRun 0
        (processEvents (initDetector false) [(0, "file.locked")]).activity_log
        "file.locked" false (fun _ => none)
      = .exn "AttributeError: RansomwareDetector object has no attribute save_alert" := by
  with_unfolding_all decide

/-- C2 counterexample: for the deny-listed path a.locked the built
reasons list is the literal "Suspicious extension detected"; it does not
contain the reason string "Suspicious file extension detected" that the
claim names. -/
theorem C2_counterexample :
    is_suspicious_ext "a.locked" = true ∧
    "Suspicious file extension detected" ∉
      (checkSuspiciousActivity 0 [⟨0, "modified", "a.locked"⟩] "a.locked" false
        (fun _ => none)).2 := by
  with_unfolding_all decide

/-- C2 (amended): for every event whose path extension, lowercased, is
in the deny-list, the evaluation triggers and the built reasons list
contains the reason "Suspicious extension detected", regardless of the
window contents and of the classifier. -/
theorem C2_suspicious_extension_triggers (t : ℚ) (log : List FsEvent) (path : String)
    (uml : Bool) (cls : List FsEvent → Option Bool)
    (hext : is_suspicious_ext path = true) :
    (checkSuspiciousActivity t log path uml cls).1 = true ∧
      "Suspicious extension detected" ∈ (checkSuspiciousActivity t log path uml cls).2 := by
  rw [check_eq]
  simp only [hext, Bool.true_or, if_true]
  exact ⟨trivial, (mem_build_reasons_ext true _ _).mpr rfl⟩

/-- C2 witness: the amended theorem applied at path a.locked with an
empty window and no classifier. -/
theorem C2_witness :
    (checkSuspiciousActivity 0 [] "a.locked" false (fun _ => none)).1 = true ∧
      "Suspicious extension detected" ∈
        (checkSuspiciousActivity 0 [] "a.locked" false (fun _ => none)).2 :=
  C2_suspicious_extension_triggers 0 [] "a.locked" false (fun _ => none) (by decide)

/-- C3 counterexample: with 11 events inside the 60-second window the
high-volume signal fires, but the reason string produced is
"High modification rate"; the alert does not contain the string
"High activity" that the claim names. -/
theorem C3_counterexample :
    (recent_events 10
        ((List.range 11).map (fun i => (⟨(i : ℚ), "modified", "f.txt"⟩ : FsEvent)))).length
      = 11 ∧
    "High activity" ∉
      (checkSuspiciousActivity 10
        ((List.range 11).map (fun i => (⟨(i : ℚ), "modified", "f.txt"⟩ : FsEvent)))
        "f.txt" false (fun _ => none)).2 := by
  with_unfolding_all decide

/-- C3 (amended): the reason "High modification rate" appears in the
built reasons list exactly when the number of events in the lookback
window strictly exceeds the alert threshold (10); in particular with 11
events in the window it appears and with 10 it does not. -/
theorem C3_high_activity_iff (t : ℚ) (log : List FsEvent) (path : String)
    (uml : Bool) (cls : List FsEvent → Option Bool) :
    ("High modification rate" ∈ (checkSuspiciousActivity t log path uml cls).2)
      ↔ alert_threshold < (recent_events t log).length := by
  rw [check_eq]
  by_cases hh : alert_threshold < (recent_events t log).length
  · simp only [decide_eq_true hh, Bool.or_true, Bool.true_or, if_true]
    simpa [mem_build_reasons_high] using hh
  · simp only [decide_eq_false hh, Bool.or_false]
    cases he : is_suspicious_ext path <;>
      cases hm : ml_suspicious uml cls (recent_events t log) <;>
        simp [mem_build_reasons_high, hh]

end CloudData
namespace CloudData

/-- C4 counterexample: after inserting events with timestamps 0 and 70
(lookback 60), the stored activity log still contains the event with
timestamp 0; it is not the case that only events with timestamp
above (0+70)-60 are retained — nothing is ever evicted. -/
theorem C4_counterexample :
    ¬ ∀ e ∈ (processEvents (initDetector false) [(0, "a"), (70, "b")]).activity_log,
        (0 : ℚ) + 70 - 60 < e.timestamp := by
  with_unfolding_all decide

/-- C4 (amended): the activity log retains every inserted event in
insertion order (no eviction happens on insert), and the window count
computed at evaluation time equals the number of retained events with
timestamp strictly greater than the evaluation time minus 60 — for the
inserted events, exactly those whose timestamp lies in that range. -/
theorem C4_no_eviction_window_count (s : DetectorState) (evts : List (ℚ × String)) (T : ℚ) :
    (processEvents s evts).activity_log
      = s.activity_log ++ evts.map (fun p => ⟨p.1, "modified", p.2⟩) ∧
    (recent_events T (processEvents s evts).activity_log).length
      = (s.activity_log.filter (fun e => T - 60 < e.timestamp)).length
        + (evts.filter (fun p => T - 60 < p.1)).length := by
  refine ⟨processEvents_activity_log s evts, ?_⟩
  rw [recent_events, processEvents_activity_log, List.filter_append, List.length_append,
    one_minute_ago, List.filter_map, List.length_map]
  rfl

/-- C8 counterexample: the blank line and the line with a non-numeric
first token (which is not a skip line) both parse to the same outcome
`none`; the claim that a caller can tell a skipped line from a
malformed line from the parse result alone fails. -/
theorem C8_counterexample :
    isSkipLine "" = true ∧
    isSkipLine "zzz 1 2 3" = false ∧
    pyFloat? ((splitWs "zzz 1 2 3").headD "") = none ∧
    parseLogLine "" "TCPconnInfo.txt" = parseLogLine "zzz 1 2 3" "TCPconnInfo.txt" := by
  decide

/-- C8 (amended): blank and header lines, and lines whose first token
does not parse as a float timestamp, all yield the single outcome
`none`; the two cases are not distinguishable from the result. -/
theorem C8_skip_and_malformed_both_none (line logType : String)
    (h : isSkipLine line = true ∨ pyFloat? ((splitWs line).headD "") = none) :
    parseLogLine line logType = none := by
  rcases h with hs | hf
  · simp [parseLogLine, hs]
  · by_cases hs : isSkipLine line
    · simp [parseLogLine, hs]
    · by_cases he : (splitWs line).isEmpty
      · simp [parseLogLine, hs, he]
      · simp only [List.headD_eq_head?_getD] at hf
        simp [parseLogLine, hs, he, hf]

/-- C8 witness: the amended theorem applied to the blank line (skip
case) and to a line with non-numeric timestamp (malformed case). -/
theorem C8_witness :
    parseLogLine "" "IOops.txt" = none ∧ parseLogLine "zzz 1 2" "IOops.txt" = none :=
  ⟨C8_skip_and_malformed_both_none "" "IOops.txt" (Or.inl (by decide)),
   C8_skip_and_malformed_both_none "zzz 1 2" "IOops.txt" (Or.inr (by decide))⟩

/-- C9 counterexample: with the classifier raising during prediction
(capability returning none on a non-empty window) and the extension
rule triggering, the evaluation does not complete with a result: it
raises AttributeError at the save_alert call, refuting the claim that
the evaluation still completes and returns a result. -/
theorem C9_counterexample :
    checkSuspiciousActivityRun 0 [⟨0, "modified", "a.locked"⟩] "a.locked" true
        (fun _ => none)
      = .exn "AttributeError: RansomwareDetector object has no attribute save_alert" := by
  with_unfolding_all decide

/-- C9 (amended): if the classifier is unavailable (`using_ml` false
after a failed load) or raises during prediction (`cls` returns `none`
on the window snapshot), the classifier signal is treated as false and
the evaluation proceeds exactly as the rule-based-only scorer — same
decision/reasons pair and same run outcome; in particular it completes
with a result whenever no rule-based signal triggers (when one does,
the run fails at the save_alert bug of C1, classifier or not).  A load
failure at startup leaves `using_ml` false after any number of
subsequent events. -/
theorem C9_classifier_degrades (t : ℚ) (log : List FsEvent) (path : String)
    (uml : Bool) (cls : List FsEvent → Option Bool)
    (h : uml = false ∨ cls (recent_events t log) = none) :
    checkSuspiciousActivity t log path uml cls
      = checkSuspiciousActivity t log path false cls ∧
    checkSuspiciousActivityRun t log path uml cls
      = checkSuspiciousActivityRun t log path false cls ∧
    ((checkSuspiciousActivity t log path false cls).1 = false →
      checkSuspiciousActivityRun t log path uml cls = PyOutcome.ok false) ∧
    ∀ evts : List (ℚ × String), (processEvents (initDetector false) evts).using_ml = false := by
  have hml : ml_suspicious uml cls (recent_events t log)
      = ml_suspicious false cls (recent_events t log) := by
    rw [ml_suspicious_of_unavailable uml cls _ h, ml_suspicious_false]
  have hcheck : checkSuspiciousActivity t log path uml cls
      = checkSuspiciousActivity t log path false cls := by
    rw [check_eq, check_eq, hml]
  refine ⟨hcheck, ?_, ?_, ?_⟩
  · rw [checkSuspiciousActivityRun, checkSuspiciousActivityRun, hcheck]
  · intro hfalse
    rw [checkSuspiciousActivityRun, hcheck]
    simp [hfalse]
  · intro evts
    rw [processEvents_using_ml, initDetector]

/-- C9 witness: the amended theorem applied with a classifier that
always raises, an empty window and a benign path; there the run
completes with the rule-based result. -/
theorem C9_witness :
    checkSuspiciousActivity 0 [] "a.txt" true (fun _ => none)
      = checkSuspiciousActivity 0 [] "a.txt" false (fun _ => none) ∧
    checkSuspiciousActivityRun 0 [] "a.txt" true (fun _ => none)
      = checkSuspiciousActivityRun 0 [] "a.txt" false (fun _ => none) ∧
    checkSuspiciousActivityRun 0 [] "a.txt" true (fun _ => none) = PyOutcome.ok false ∧
    ∀ evts : List (ℚ × String), (processEvents (initDetector false) evts).using_ml = false := by
  have h := C9_classifier_degrades 0 [] "a.txt" true (fun _ => none) (Or.inr rfl)
  exact ⟨h.1, h.2.1, h.2.2.1 (by with_unfolding_all decide), h.2.2.2⟩

/-- C10: `parse_log_line` is total — modelled as a total function whose
every exception path returns `none` — and in particular an unknown
log-type tag yields `none`, and a line with too few fields for its kind
(fewer than 3 for DNSinfo.txt and for TCPconnInfo.txt, fewer than 2 for
IOops.txt) yields the skip outcome `none` rather than an error. -/
theorem C10_parse_total (line logType : String) :
    (logType ∉ knownLogTypes → parseLogLine line logType = none) ∧
    (logType = "DNSinfo.txt" ∨ logType = "TCPconnInfo.txt" →
      (splitWs line).length < 3 → parseLogLine line logType = none) ∧
    (logType = "IOops.txt" → (splitWs line).length < 2 →
      parseLogLine line logType = none) := by
  refine ⟨?_, ?_, ?_⟩
  · intro hunk
    simp only [knownLogTypes, List.mem_cons, List.not_mem_nil, or_false, not_or] at hunk
    obtain ⟨h1, h2, h3⟩ := hunk
    by_cases hs : isSkipLine line
    · simp [parseLogLine, hs]
    · by_cases he : (splitWs line).isEmpty
      · simp [parseLogLine, hs, he]
      · cases hf : pyFloat? ((splitWs line).headD "") with
        | none =>
          simp only [List.headD_eq_head?_getD] at hf
          simp [parseLogLine, hs, he, hf]
        | some ts =>
          simp only [List.headD_eq_head?_getD] at hf
          simp [parseLogLine, hs, he, hf, h1, h2, h3]
  · intro htag hlen
    by_cases hs : isSkipLine line
    · simp [parseLogLine, hs]
    · by_cases he : (splitWs line).isEmpty
      · simp [parseLogLine, hs, he]
      · cases hf : pyFloat? ((splitWs line).headD "") with
        | none =>
          simp only [List.headD_eq_head?_getD] at hf
          simp [parseLogLine, hs, he, hf]
        | some ts =>
          simp only [List.headD_eq_head?_getD] at hf
          rcases htag with rfl | rfl <;> simp [parseLogLine, hs, he, hf, hlen]
  · intro htag hlen
    subst htag
    by_cases hs : isSkipLine line
    · simp [parseLogLine, hs]
    · by_cases he : (splitWs line).isEmpty
      · simp [parseLogLine, hs, he]
      · cases hf : pyFloat? ((splitWs line).headD "") with
        | none =>
          simp only [List.headD_eq_head?_getD] at hf
          simp [parseLogLine, hs, he, hf]
        | some ts =>
          simp only [List.headD_eq_head?_getD] at hf
          simp [parseLogLine, hs, he, hf, hlen]

/-- C10 witness: the theorem applied to an unknown tag, to 2-token
DNSinfo and TCPconnInfo lines (kind threshold 3), and to a 1-token
IOops line (kind threshold 2). -/
theorem C10_witness :
    parseLogLine "1.0 a b c" "other.txt" = none ∧
    parseLogLine "1.0 a" "DNSinfo.txt" = none ∧
    parseLogLine "1.0 a" "TCPconnInfo.txt" = none ∧
    parseLogLine "1.0" "IOops.txt" = none :=
  ⟨(C10_parse_total "1.0 a b c" "other.txt").1 (by decide),
   (C10_parse_total "1.0 a" "DNSinfo.txt").2.1 (Or.inl rfl) (by decide),
   (C10_parse_total "1.0 a" "TCPconnInfo.txt").2.1 (Or.inr rfl) (by decide),
   (C10_parse_total "1.0" "IOops.txt").2.2 rfl (by decide)⟩

end CloudData
namespace CloudData

/-- C5 counterexample: the line "1.0 10.0.0.5:abc 10.0.0.9:445 WRITE"
has a valid float first token and four tokens, and the port segment of
its 2nd token is non-numeric; the claim says parsing succeeds with only
that port absent, but the whole line is rejected (the ValueError from
int() makes parse_log_line return None). -/
theorem C5_counterexample :
    pyFloat? ((splitWs "1.0 10.0.0.5:abc 10.0.0.9:445 WRITE").headD "") = some 1 ∧
    3 ≤ (splitWs "1.0 10.0.0.5:abc 10.0.0.9:445 WRITE").length ∧
    parseLogLine "1.0 10.0.0.5:abc 10.0.0.9:445 WRITE" "TCPconnInfo.txt" = none := by
  decide

/-- C5 (amended): for a NET line with a valid float timestamp and at
least 3 tokens, each of the two ip:port tokens degrades gracefully on
its own when its port segment is absent (the token has no colon): that
port field is left none while the other port — absent or numeric — is
handled independently; but a port segment that is present and
non-numeric, whether in the 2nd or in the 3rd token, rejects the whole
line (returns none). -/
theorem C5_port_handling (line : String) (ts : ℚ)
    (hskip : isSkipLine line = false)
    (hts : pyFloat? ((splitWs line).headD "") = some ts)
    (hlen : 3 ≤ (splitWs line).length) :
    ((splitColon ((splitWs line).getD 1 "")).length = 1 →
     (splitColon ((splitWs line).getD 2 "")).length = 1 →
     parseLogLine line "TCPconnInfo.txt"
       = some (.tcp ts ((splitColon ((splitWs line).getD 1 "")).headD "")
           ((splitColon ((splitWs line).getD 2 "")).headD "") none none
           (if 3 < (splitWs line).length then some ((splitWs line).getD 3 "") else none))) ∧
    (∀ dp : ℤ,
     (splitColon ((splitWs line).getD 1 "")).length = 1 →
     1 < (splitColon ((splitWs line).getD 2 "")).length →
     pyInt? ((splitColon ((splitWs line).getD 2 "")).getD 1 "") = some dp →
     parseLogLine line "TCPconnInfo.txt"
       = some (.tcp ts ((splitColon ((splitWs line).getD 1 "")).headD "")
           ((splitColon ((splitWs line).getD 2 "")).headD "") none (some dp)
           (if 3 < (splitWs line).length then some ((splitWs line).getD 3 "") else none))) ∧
    (∀ sp : ℤ,
     1 < (splitColon ((splitWs line).getD 1 "")).length →
     pyInt? ((splitColon ((splitWs line).getD 1 "")).getD 1 "") = some sp →
     (splitColon ((splitWs line).getD 2 "")).length = 1 →
     parseLogLine line "TCPconnInfo.txt"
       = some (.tcp ts ((splitColon ((splitWs line).getD 1 "")).headD "")
           ((splitColon ((splitWs line).getD 2 "")).headD "") (some sp) none
           (if 3 < (splitWs line).length then some ((splitWs line).getD 3 "") else none))) ∧
    (1 < (splitColon ((splitWs line).getD 1 "")).length →
     pyInt? ((splitColon ((splitWs line).getD 1 "")).getD 1 "") = none →
     parseLogLine line "TCPconnInfo.txt" = none) ∧
    (1 < (splitColon ((splitWs line).getD 2 "")).length →
     pyInt? ((splitColon ((splitWs line).getD 2 "")).getD 1 "") = none →
     parseLogLine line "TCPconnInfo.txt" = none) := by
  have he : (splitWs line).isEmpty = false := by
    cases hsp : splitWs line with
    | nil => rw [hsp] at hlen; simp at hlen
    | cons a l => simp
  have h3 : ¬ (splitWs line).length < 3 := by omega
  simp only [List.headD_eq_head?_getD] at hts
  refine ⟨?_, ?_, ?_, ?_, ?_⟩
  · intro hsrc hdst
    simp only [List.getD_eq_getElem?_getD] at hsrc hdst
    simp [parseLogLine, hskip, he, hts, h3, hsrc, hdst]
  · intro dp hsrc hdst hdp
    simp only [List.getD_eq_getElem?_getD] at hsrc hdst hdp
    simp only [List.getElem?_eq_getElem hdst, Option.getD_some] at hdp
    simp [parseLogLine, hskip, he, hts, h3, hsrc, hdst, hdp]
  · intro sp hsrc hsp hdst
    simp only [List.getD_eq_getElem?_getD] at hsrc hsp hdst
    simp only [List.getElem?_eq_getElem hsrc, Option.getD_some] at hsp
    simp [parseLogLine, hskip, he, hts, h3, hsrc, hsp, hdst]
  · intro hsrc hnum
    simp only [List.getD_eq_getElem?_getD] at hsrc hnum
    simp only [List.getElem?_eq_getElem hsrc, Option.getD_some] at hnum
    simp [parseLogLine, hskip, he, hts, h3, hsrc, hnum]
  · intro hdst hnum
    simp only [List.getD_eq_getElem?_getD] at hdst hnum
    simp only [List.getElem?_eq_getElem hdst, Option.getD_some] at hnum
    simp [parseLogLine, hskip, he, hts, h3, hdst, hnum]

/-- C5 witness: the amended theorem applied to lines exercising every
case — both ports absent, only the 2nd-token port absent, only the
3rd-token port absent, a non-numeric 2nd-token port, and a non-numeric
3rd-token port. -/
theorem C5_witness :
    parseLogLine "1.0 10.0.0.5 10.0.0.9 WRITE" "TCPconnInfo.txt"
      = some (.tcp 1 "10.0.0.5" "10.0.0.9" none none (some "WRITE")) ∧
    parseLogLine "1.0 10.0.0.5 10.0.0.9:445 WRITE" "TCPconnInfo.txt"
      = some (.tcp 1 "10.0.0.5" "10.0.0.9" none (some 445) (some "WRITE")) ∧
    parseLogLine "1.0 10.0.0.5:4444 10.0.0.9 WRITE" "TCPconnInfo.txt"
      = some (.tcp 1 "10.0.0.5" "10.0.0.9" (some 4444) none (some "WRITE")) ∧
    parseLogLine "1.5 10.0.0.5:abc 10.0.0.9:445 READ" "TCPconnInfo.txt" = none ∧
    parseLogLine "1.5 10.0.0.5:4444 10.0.0.9:xyz READ" "TCPconnInfo.txt" = none := by
  refine ⟨?_, ?_, ?_, ?_, ?_⟩
  · exact (((C5_port_handling "1.0 10.0.0.5 10.0.0.9 WRITE" 1 (by decide) (by decide)
      (by decide)).1 (by decide) (by decide)).trans (by decide))
  · exact ((((C5_port_handling "1.0 10.0.0.5 10.0.0.9:445 WRITE" 1 (by decide) (by decide)
      (by decide)).2.1 445 (by decide) (by decide) (by decide)).trans (by decide)))
  · exact ((((C5_port_handling "1.0 10.0.0.5:4444 10.0.0.9 WRITE" 1 (by decide) (by decide)
      (by decide)).2.2.1 4444 (by decide) (by decide) (by decide)).trans (by decide)))
  · exact ((C5_port_handling "1.5 10.0.0.5:abc 10.0.0.9:445 READ" (mkRat 3 2) (by decide)
      (by decide) (by decide)).2.2.2.1 (by decide) (by decide))
  · exact ((C5_port_handling "1.5 10.0.0.5:4444 10.0.0.9:xyz READ" (mkRat 3 2) (by decide)
      (by decide) (by decide)).2.2.2.2 (by decide) (by decide))

end CloudData
namespace CloudData

/-! ## Sorting lemmas for the batch analyzer -/

theorem mem_insortThreatDesc (x t : Threat) (l : List Threat) :
    x ∈ insortThreatDesc t l ↔ x = t ∨ x ∈ l := by
  induction l with
  | nil => simp [insortThreatDesc]
  | cons h rest ih =>
    rw [insortThreatDesc]
    split
    · exact List.mem_cons
    · rw [List.mem_cons, ih, List.mem_cons]
      tauto

theorem mem_sortThreatsDesc (x : Threat) (l : List Threat) :
    x ∈ sortThreatsDesc l ↔ x ∈ l := by
  induction l with
  | nil => simp [sortThreatsDesc]
  | cons t ts ih =>
    show x ∈ insortThreatDesc t (sortThreatsDesc ts) ↔ _
    rw [mem_insortThreatDesc, ih, List.mem_cons]

theorem pairwise_insortThreatDesc (t : Threat) (l : List Threat)
    (hl : List.Pairwise tieBreak l) (ht : ∀ y ∈ l, t.path < y.path) :
    List.Pairwise tieBreak (insortThreatDesc t l) := by
  induction l with
  | nil => simp [insortThreatDesc, List.Pairwise.cons]
  | cons h rest ih =>
    rw [List.pairwise_cons] at hl
    obtain ⟨hh, hrest⟩ := hl
    rw [insortThreatDesc]
    split
    · rename_i hle
      refine List.Pairwise.cons ?_ (List.Pairwise.cons hh hrest)
      intro z hz
      have hzscore : z.threat_score ≤ t.threat_score := by
        rcases List.mem_cons.mp hz with rfl | hz'
        · exact hle
        · rcases hh z hz' with hlt | ⟨heq, _⟩ <;> omega
      have hzpath : t.path < z.path := ht z hz
      rcases lt_or_eq_of_le hzscore with hlt | heq
      · exact Or.inl hlt
      · exact Or.inr ⟨heq.symm, hzpath⟩
    · rename_i hgt
      push_neg at hgt
      refine List.Pairwise.cons ?_
        (ih hrest (fun y hy => ht y (List.mem_cons_of_mem h hy)))
      intro z hz
      rcases (mem_insortThreatDesc z t rest).mp hz with rfl | hz'
      · exact Or.inl hgt
      · exact hh z hz'

theorem pairwise_sortThreatsDesc (l : List Threat)
    (hl : List.Pairwise (fun a b => a.path < b.path) l) :
    List.Pairwise tieBreak (sortThreatsDesc l) := by
  induction l with
  | nil => exact List.Pairwise.nil
  | cons t ts ih =>
    rw [List.pairwise_cons] at hl
    obtain ⟨ht, hts⟩ := hl
    show List.Pairwise tieBreak (insortThreatDesc t (sortThreatsDesc ts))
    exact pairwise_insortThreatDesc t _ (ih hts)
      (fun y hy => ht y ((mem_sortThreatsDesc y ts).mp hy))

theorem mem_insertSortedString (q x : String) (l : List String) :
    q ∈ insertSortedString x l ↔ q = x ∨ q ∈ l := by
  induction l with
  | nil => simp [insertSortedString]
  | cons y ys ih =>
    rw [insertSortedString]
    split
    · simp [List.mem_cons]
    · split
      · rename_i hnlt heq
        subst heq
        simp only [List.mem_cons]
        tauto
      · simp only [List.mem_cons, ih]
        tauto

theorem pairwise_insertSortedString (x : String) (l : List String)
    (hl : List.Pairwise (· < ·) l) :
    List.Pairwise (· < ·) (insertSortedString x l) := by
  induction l with
  | nil => simp [insertSortedString]
  | cons y ys ih =>
    rw [List.pairwise_cons] at hl
    obtain ⟨hy, hys⟩ := hl
    rw [insertSortedString]
    split
    · rename_i hxy
      refine List.Pairwise.cons ?_ (List.Pairwise.cons hy hys)
      intro z hz
      rcases List.mem_cons.mp hz with rfl | hz'
      · exact hxy
      · exact hxy.trans (hy z hz')
    · split
      · exact List.Pairwise.cons hy hys
      · rename_i hnlt hne
        have hyx : y < x := lt_of_le_of_ne (not_lt.mp hnlt) (fun h => hne h.symm)
        refine List.Pairwise.cons ?_ (ih hys)
        intro z hz
        rcases (mem_insertSortedString z x ys).mp hz with rfl | hz'
        · exact hyx
        · exact hy z hz'

theorem mem_foldl_insertSortedString (rows : List LogRow) (acc : List String) (p : String) :
    p ∈ rows.foldl (fun a r => insertSortedString r.path a) acc
      ↔ p ∈ acc ∨ ∃ r ∈ rows, r.path = p := by
  induction rows generalizing acc with
  | nil => simp
  | cons r rs ih =>
    show p ∈ rs.foldl _ (insertSortedString r.path acc) ↔ _
    rw [ih, mem_insertSortedString]
    constructor
    · rintro ((rfl | hacc) | ⟨q, hq, hqp⟩)
      · exact Or.inr ⟨r, List.mem_cons_self r rs, rfl⟩
      · exact Or.inl hacc
      · exact Or.inr ⟨q, List.mem_cons_of_mem r hq, hqp⟩
    · rintro (hacc | ⟨q, hq, rfl⟩)
      · exact Or.inl (Or.inr hacc)
      · rcases List.mem_cons.mp hq with rfl | hq'
        · exact Or.inl (Or.inl rfl)
        · exact Or.inr ⟨q, hq', rfl⟩

theorem mem_groupKeys (rows : List LogRow) (p : String) :
    p ∈ groupKeys rows ↔ ∃ r ∈ rows, r.path = p := by
  rw [groupKeys, mem_foldl_insertSortedString]
  simp

theorem pairwise_groupKeys (rows : List LogRow) :
    List.Pairwise (· < ·) (groupKeys rows) := by
  rw [groupKeys]
  generalize hacc : ([] : List String) = acc
  have h0 : List.Pairwise (· < ·) acc := by rw [← hacc]; exact List.Pairwise.nil
  clear hacc
  induction rows generalizing acc with
  | nil => exact h0
  | cons r rs ih => exact ih _ (pairwise_insertSortedString _ _ h0)

theorem pairwise_path_preThreats (rows : List LogRow) :
    List.Pairwise (fun a b : Threat => a.path < b.path)
      ((groupKeys rows).filterMap (fun p =>
        let t := threatOf p (groupRows rows p)
        if 2 ≤ t.threat_score then some t else none)) := by
  refine List.Pairwise.filterMap _ ?_ (pairwise_groupKeys rows)
  intro a b hab c hc d hd
  have hca : c.path = a := by
    by_cases h2 : 2 ≤ (threatOf a (groupRows rows a)).threat_score
    · simp only [Option.mem_def, h2, if_pos] at hc
      rw [← Option.some_inj.mp hc]
      rfl
    · simp [h2] at hc
  have hdb : d.path = b := by
    by_cases h2 : 2 ≤ (threatOf b (groupRows rows b)).threat_score
    · simp only [Option.mem_def, h2, if_pos] at hd
      rw [← Option.some_inj.mp hd]
      rfl
    · simp [h2] at hd
  rw [hca, hdb]
  exact hab

theorem mem_analyzeThreats (rows : List LogRow) (th : Threat) :
    th ∈ analyzeThreats rows
      ↔ ∃ p ∈ groupKeys rows,
          2 ≤ (threatOf p (groupRows rows p)).threat_score
            ∧ th = threatOf p (groupRows rows p) := by
  rw [analyzeThreats, mem_sortThreatsDesc, List.mem_filterMap]
  constructor
  · rintro ⟨p, hp, hsome⟩
    by_cases h2 : 2 ≤ (threatOf p (groupRows rows p)).threat_score
    · exact ⟨p, hp, h2, (Option.some_inj.mp (by simpa [h2] using hsome)).symm⟩
    · simp [h2] at hsome
  · rintro ⟨p, hp, h2, rfl⟩
    exact ⟨p, hp, by simp [h2]⟩

end CloudData
namespace CloudData

/-- C6 counterexample: two tied groups (first occurrence order b then
a, both scoring 2 through rapid operations) are reported a before b:
pandas groupby iterates group keys in sorted order, so ties come out in
ascending path order, not in insertion order of the groups. -/
theorem C6_counterexample :
    (analyzeThreats [⟨0, "b"⟩, ⟨mkRat 1 2, "b"⟩, ⟨10, "a"⟩, ⟨mkRat 21 2, "a"⟩]).map
        (fun t => t.path) = ["a", "b"] ∧
    firstOccurrencePaths [⟨0, "b"⟩, ⟨mkRat 1 2, "b"⟩, ⟨10, "a"⟩, ⟨mkRat 21 2, "a"⟩]
      = ["b", "a"] ∧
    ∀ th ∈ analyzeThreats [⟨0, "b"⟩, ⟨mkRat 1 2, "b"⟩, ⟨10, "a"⟩, ⟨mkRat 21 2, "a"⟩],
      th.threat_score = 2 := by
  with_unfolding_all decide

/-- C6 (amended): in batch mode every reported threat carries the score
+2 for a consecutive pair of its events under one second apart, +3 for a
suspicious path substring, +1 for more than 10 events; exactly the paths
whose group scores at least 2 are reported; and the report is sorted by
score descending with ties in ascending path order (the order pandas
groupby yields the groups), not insertion order. -/
theorem C6_batch_scoring (rows : List LogRow) :
    (∀ th ∈ analyzeThreats rows,
        th.threat_score =
          (if hasRapidOps (groupRows rows th.path) then 2 else 0)
          + (if pathSuspicious th.path then 3 else 0)
          + (if 10 < (groupRows rows th.path).length then 1 else 0)
        ∧ 2 ≤ th.threat_score) ∧
    (∀ p : String,
        (∃ th ∈ analyzeThreats rows, th.path = p)
          ↔ ((∃ r ∈ rows, r.path = p)
              ∧ 2 ≤ (threatOf p (groupRows rows p)).threat_score)) ∧
    List.Pairwise tieBreak (analyzeThreats rows) := by
  refine ⟨?_, ?_, ?_⟩
  · intro th hth
    obtain ⟨p, hp, h2, rfl⟩ := (mem_analyzeThreats rows th).mp hth
    exact ⟨rfl, h2⟩
  · intro p
    constructor
    · rintro ⟨th, hth, rfl⟩
      obtain ⟨q, hq, h2, rfl⟩ := (mem_analyzeThreats rows th).mp hth
      exact ⟨(mem_groupKeys rows q).mp hq, h2⟩
    · rintro ⟨hrow, h2⟩
      refine ⟨threatOf p (groupRows rows p), ?_, rfl⟩
      exact (mem_analyzeThreats rows _).mpr ⟨p, (mem_groupKeys rows p).mpr hrow, h2, rfl⟩
  · exact pairwise_sortThreatsDesc _ (pairwise_path_preThreats rows)

/-- C6 witness: the amended theorem applied to a two-event group on
path a.locked (rapid operations plus suspicious substring, score 5),
showing the path is reported. -/
theorem C6_witness :
    ∃ th ∈ analyzeThreats [⟨0, "a.locked"⟩, ⟨mkRat 1 2, "a.locked"⟩], th.path = "a.locked" :=
  ((C6_batch_scoring [⟨0, "a.locked"⟩, ⟨mkRat 1 2, "a.locked"⟩]).2.1 "a.locked").mpr
    ⟨⟨⟨0, "a.locked"⟩, by simp, rfl⟩, by with_unfolding_all decide⟩

end CloudData
